import Mathlib

set_option maxRecDepth 20000

/-!
Verification development for the pinspect socket-ownership correlation
subsystem (src/net.c, src/proc_fd.c).  The C functions are shallowly
embedded over `List Char` / `String`; files are lists of lines, the
descriptor directory is a list of entries, machine integers are `Nat`
with explicit `% 2 ^ w` where a cast matters.
-/

/-- `isspace` for the scanf whitespace classes. -/
def isSpaceC (c : Char) : Bool :=
  c = ' ' || c = '\t' || c = '\n' || c = '\r' ||
  c = Char.ofNat 11 || c = Char.ofNat 12

/-- Hexadecimal digit test, as accepted by `%x`/`%X`. -/
def isHexDigitC (c : Char) : Bool :=
  c.isDigit || ('a' ≤ c && c ≤ 'f') || ('A' ≤ c && c ≤ 'F')

/-- Value of one hexadecimal digit. -/
def hexDigitVal (c : Char) : Nat :=
  if c.isDigit then c.toNat - 48
  else if 'a' ≤ c && c ≤ 'f' then c.toNat - 87
  else c.toNat - 55

/-- Value of a hexadecimal digit run. -/
def hexListVal (l : List Char) : Nat :=
  l.foldl (fun a c => 16 * a + hexDigitVal c) 0

/-- Value of a decimal digit run. -/
def decListVal (l : List Char) : Nat :=
  l.foldl (fun a c => 10 * a + digitVal c) 0
where digitVal (c : Char) : Nat := c.toNat - 48

/-- Skip scanf whitespace. -/
def skipWs (l : List Char) : List Char := l.dropWhile isSpaceC

/-- Read a nonempty decimal digit run; fails on anything else. -/
def readDecRun (l : List Char) : Option (Nat × List Char) :=
  let run := l.takeWhile Char.isDigit
  if run.isEmpty then none else some (decListVal run, l.dropWhile Char.isDigit)

/-- Read a nonempty hexadecimal digit run; fails on anything else. -/
def readHexRun (l : List Char) : Option (Nat × List Char) :=
  let run := l.takeWhile isHexDigitC
  if run.isEmpty then none else some (hexListVal run, l.dropWhile isHexDigitC)

/-- scanf `%u`/`%lu` conversion: skip whitespace, optional sign, nonempty
digit run.  `w` is the modulus of the destination type (2^32 or 2^64);
a negated value wraps as in `strtoul`.  (The `0x`-accepting base detection
of `%i` does not apply to `%u`.) -/
def scanfUInt (w : Nat) (l : List Char) : Option (Nat × List Char) :=
  match skipWs l with
  | [] => none
  | c :: r =>
    if c = '+' then (readDecRun r).map (fun p => (p.1 % w, p.2))
    else if c = '-' then (readDecRun r).map (fun p => ((w - p.1 % w) % w, p.2))
    else (readDecRun (c :: r)).map (fun p => (p.1 % w, p.2))

/-- scanf `%x`/`%X` conversion: skip whitespace, optional sign, nonempty
hexadecimal run.  (The optional `0x` prefix is not modelled; no input
considered here carries one, and a leading `0` parses identically.) -/
def scanfHex (w : Nat) (l : List Char) : Option (Nat × List Char) :=
  match skipWs l with
  | [] => none
  | c :: r =>
    if c = '+' then (readHexRun r).map (fun p => (p.1 % w, p.2))
    else if c = '-' then (readHexRun r).map (fun p => ((w - p.1 % w) % w, p.2))
    else (readHexRun (c :: r)).map (fun p => (p.1 % w, p.2))

/-- scanf `%*d`: skip whitespace, optional sign, nonempty digit run,
value discarded. -/
def scanfSkipInt (l : List Char) : Option (List Char) :=
  match skipWs l with
  | [] => none
  | c :: r =>
    if c = '+' || c = '-' then (readDecRun r).map Prod.snd
    else (readDecRun (c :: r)).map Prod.snd

/-- scanf `%s` (with an optional maximum field width, as in `%63s`):
skip whitespace, then a nonempty run of non-whitespace characters,
cut at the field width. -/
def readToken (maxw : Option Nat) (l : List Char) : Option (List Char × List Char) :=
  let l1 := skipWs l
  let full := l1.takeWhile (fun c => !isSpaceC c)
  let run := match maxw with
    | some m => full.take m
    | none => full
  if run.isEmpty then none else some (run, l1.drop run.length)

/-- Match a literal character of a scanf format. -/
def expectChar (c : Char) (l : List Char) : Option (List Char) :=
  match l with
  | [] => none
  | x :: r => if x = c then some r else none

/-- Match a literal string of a scanf format (no whitespace skipping:
the literal `socket:[` contains no space directive). -/
def dropLit : List Char → List Char → Option (List Char)
  | [], l => some l
  | _ :: _, [] => none
  | c :: cs, x :: xs => if x = c then dropLit cs xs else none

/- ------------------------------------------------------------------ -/
/- proc_fd.c                                                          -/
/- ------------------------------------------------------------------ -/

/-- One open-descriptor record, `fd_entry_t` (pinspect.h:55). -/
structure fd_entry where
  fd : Nat
  target : String
  is_socket : Bool
  socket_inode : Nat
deriving DecidableEq, Repr

/-- proc_fd.c:334 `parse_socket_inode`: `sscanf(target, "socket:[%lu]", inode) == 1`.
The literal `socket:[` must match at the start, then the `%lu` conversion
(whitespace skip, optional sign, digits) must succeed; the trailing `]`
of the format is matched after the conversion was already counted, so it
does not influence the result. -/
def parse_socket_inode (t : String) : Option Nat :=
  match dropLit "socket:[".data t.data with
  | none => none
  | some rest => (scanfUInt (2 ^ 64) rest).map Prod.fst

/-- proc_fd.c:31 `is_numeric`. -/
def is_numeric (s : String) : Bool :=
  if s.data.isEmpty then false
  else if s = "." || s = ".." then false
  else s.data.all Char.isDigit

/-- `atoi` on the digit-only names that reach it (proc_fd.c:145); the
whitespace/sign handling of full `atoi` never triggers on a name that
passed `is_numeric`. -/
def atoi (s : String) : Nat := decListVal (s.data.takeWhile Char.isDigit)

/-- proc_fd.c:121 `parse_fd_entry`: fd from `atoi`, target copied with
`strncpy(..., sizeof(entry->target) - 1)` (PATH_MAX = 4096), socket
classification through `parse_socket_inode` on the full target. -/
def parse_fd_entry (name target : String) : fd_entry :=
  match parse_socket_inode target with
  | some ino =>
      { fd := atoi name, target := ⟨target.data.take 4095⟩,
        is_socket := true, socket_inode := ino }
  | none =>
      { fd := atoi name, target := ⟨target.data.take 4095⟩,
        is_socket := false, socket_inode := 0 }

/-- One `readdir` result: the entry name, and the text `readlink` would
resolve it to (`none` when `resolve_fd_target` fails, e.g. the descriptor
closed between the listing and the `readlink`). -/
structure dirent where
  name : String
  link_target : Option String
deriving DecidableEq, Repr

/-- The `readdir` loop of proc_fd.c:258-290: non-numeric names are
skipped, entries whose symlink resolution fails are skipped
(proc_fd.c:270), the rest are parsed in directory order.  `readlink`
receives a PATH_MAX buffer and truncates to 4095 characters. -/
def enumerate_fds_loop : List dirent → List fd_entry
  | [] => []
  | e :: rest =>
    if is_numeric e.name = false then enumerate_fds_loop rest
    else match e.link_target with
      | none => enumerate_fds_loop rest
      | some t => parse_fd_entry e.name ⟨t.data.take 4095⟩ :: enumerate_fds_loop rest

/-- proc_fd.c:169 `enumerate_fds`.  The directory is `none` when
`opendir` fails; that is the only aborting condition modelled
(allocation is assumed to succeed). -/
def enumerate_fds : Option (List dirent) → Option (List fd_entry)
  | none => none
  | some es => some (enumerate_fds_loop es)

/- ------------------------------------------------------------------ -/
/- net.c                                                              -/
/- ------------------------------------------------------------------ -/

/-- `htonl` on a little-endian host: a 32-bit byte swap. -/
def htonl_le (x : Nat) : Nat :=
  (x % 256) * 2 ^ 24 + (x / 2 ^ 8 % 256) * 2 ^ 16 +
  (x / 2 ^ 16 % 256) * 2 ^ 8 + (x / 2 ^ 24 % 256)

/-- net.c:71 `parse_hex_addr`: `sscanf(hex, "%x:%x", &ip_hex, &port_hex)`
must assign both conversions; then `*ip = htonl(ip_hex)` (little-endian
host) and `*port = (uint16_t)port_hex`.  Values are reduced at the
`unsigned int` width. -/
def parse_hex_addr (s : String) : Option (Nat × Nat) := do
  let (ip_hex, l1) ← scanfHex (2 ^ 32) s.data
  let l2 ← expectChar ':' l1
  let (port_hex, _) ← scanfHex (2 ^ 32) l2
  some (htonl_le ip_hex, port_hex % 2 ^ 16)

/-- `inet_ntoa` on a little-endian host: the `s_addr` value is printed
byte by byte in memory order, which on a little-endian machine is the
least significant byte first. -/
def inet_ntoa_le (addr : Nat) : String :=
  toString (addr % 256) ++ "." ++ toString (addr / 2 ^ 8 % 256) ++ "." ++
  toString (addr / 2 ^ 16 % 256) ++ "." ++ toString (addr / 2 ^ 24 % 256)

/-- `snprintf` truncation: at most `buflen - 1` characters are stored
ahead of the terminating NUL. -/
def snprintf_trunc (s : String) (buflen : Nat) : String :=
  ⟨s.data.take (buflen - 1)⟩

/-- net.c:117 `format_ip_port`.  `buf_null` models a NULL `buf`
argument.  The result is the string left in the caller's buffer, or
`none` when the function returns without writing anything
(net.c:119-121). -/
def format_ip_port (addr port : Nat) (buf_null : Bool) (buflen : Nat) : Option String :=
  if buf_null || buflen = 0 then none
  else some (snprintf_trunc (inet_ntoa_le (addr % 2 ^ 32) ++ ":" ++ toString (port % 2 ^ 16)) buflen)

/-- net.c:154 `inode_in_set`: NULL/empty set gives `false`, otherwise a
linear scan. -/
def inode_in_set (inode : Nat) : List Nat → Bool
  | [] => false
  | x :: rest => if x = inode then true else inode_in_set inode rest

/-- The six assigned conversions of one connection-table line
(net.c:249): `" %u: %63s %63s %X %*s %*s %*s %u %*d %lu"`. -/
structure net_row where
  slot : Nat
  local_tok : String
  remote_tok : String
  st : Nat
  uid : Nat
  inode : Nat
deriving DecidableEq, Repr

/-- net.c:249 `sscanf` of one line.  `none` corresponds to
`matched < 6`: the chain of directives broke before the final `%lu`
(the six assigned conversions are exactly the ones up to and including
the inode, so `matched ≥ 6` iff every directive succeeded). -/
def sscanf_net_line (line : String) : Option net_row := do
  let (slot, l1) ← scanfUInt (2 ^ 32) line.data
  let l2 ← expectChar ':' l1
  let (ltok, l3) ← readToken (some 63) l2
  let (rtok, l4) ← readToken (some 63) l3
  let (st, l5) ← scanfHex (2 ^ 32) l4
  let (_, l6) ← readToken none l5
  let (_, l7) ← readToken none l6
  let (_, l8) ← readToken none l7
  let (uid, l9) ← scanfUInt (2 ^ 32) l8
  let l10 ← scanfSkipInt l9
  let (inode, _) ← scanfUInt (2 ^ 64) l10
  some { slot := slot, local_tok := ⟨ltok⟩, remote_tok := ⟨rtok⟩,
         st := st, uid := uid, inode := inode }

/-- Modelled from the spec: `socket_info_t` is used throughout net.h,
net.c and main.c but its definition is missing from the repository
(pinspect.h leaves it as a `TODO: Week 4 - Add socket_info_t`).  Spec §3
`SocketInfo` prescribes the fields `isTcp`, `localAddress`, `localPort`,
`remoteAddress`, `remotePort`, `state`, `inode`, with the address, port,
state and inode fields numeric.  Two fields are typed here by what
net.c:272-277 actually stores: `remote_addr` receives the raw address
token (net.c:275 assigns the `remote_addr` character buffer, not the
decoded `remote_ip`), so it is a `String`; `state` is never assigned by
`parse_net_file`, so it is an `Option Nat` and every constructed record
carries `none` for the indeterminate field. -/
structure socket_info where
  is_tcp : Bool
  local_addr : Nat
  local_port : Nat
  remote_addr : String
  remote_port : Nat
  state : Option Nat
  inode : Nat
deriving DecidableEq, Repr

/-- The per-line loop of net.c:236-293: a line whose `sscanf` assigned
fewer than six conversions is skipped (net.c:253), a line whose inode is
not in the target set is skipped (net.c:258), a line either of whose
address tokens fails `parse_hex_addr` is skipped (net.c:266), and the
surviving lines append a record in file order.  The stored record takes
the decoded local address and the two decoded ports, the raw remote
token (net.c:275), the inode, and no state. -/
def process_lines (is_tcp : Bool) (targets : List Nat) : List String → List socket_info
  | [] => []
  | l :: ls =>
    match sscanf_net_line l with
    | none => process_lines is_tcp targets ls
    | some row =>
      if inode_in_set row.inode targets = false then process_lines is_tcp targets ls
      else
        match parse_hex_addr row.local_tok, parse_hex_addr row.remote_tok with
        | some (local_ip, local_port), some (_remote_ip, remote_port) =>
            { is_tcp := is_tcp, local_addr := local_ip, local_port := local_port,
              remote_addr := row.remote_tok, remote_port := remote_port,
              state := none, inode := row.inode } :: process_lines is_tcp targets ls
        | _, _ => process_lines is_tcp targets ls

/-- net.c:199 `parse_net_file`.  The file is `none` when `fopen` would
fail, otherwise the list of its lines.  The first returned component is
the `(*results, *result_count)` pair (or an error), the second is
whether `fopen` was reached.  A NULL target set and an empty one
coincide in the model (net.c:208 treats them alike).  Note net.c:312
stores `0`, not `count`, into `*result_count` on the populated path, and
net.c:301 stores `0` on the empty path, so the reported count is always
`0`. -/
def parse_net_file (file : Option (List String)) (is_tcp : Bool)
    (targets : List Nat) : Except Unit (List socket_info × Nat) × Bool :=
  if targets.isEmpty then (Except.ok ([], 0), false)
  else
    match file with
    | none => (Except.error (), true)
    | some [] => (Except.ok ([], 0), true)
    | some (_header :: rest) => (Except.ok (process_lines is_tcp targets rest, 0), true)

/-- net.c:344 `find_process_sockets`, with the descriptor directory and
the two table files as abstract inputs.  The first returned component is
the `(*sockets, *count)` pair (or an error); the other two record
whether the TCP and the UDP table were opened.  Three slips of the
source are reproduced: net.c:354 passes `&count` (the address of the
output-pointer parameter) instead of `&fd_count` to `enumerate_fds`, so
the local `fd_count` declared at net.c:352 keeps its initial `0`;
net.c:398 passes `&tcp_sockets`/`&tcp_count` again for the UDP table,
overwriting the TCP outputs while `udp_sockets`/`udp_count` stay empty;
and the merge copies `tcp_count` elements of whatever `tcp_sockets`
finally holds. -/
def find_process_sockets (dir : Option (List dirent))
    (tcp_file udp_file : Option (List String)) :
    Except Unit (List socket_info × Nat) × Bool × Bool :=
  match enumerate_fds dir with
  | none => (Except.error (), false, false)
  | some fds =>
    let fd_count : Nat := 0
    let socket_inodes : List Nat :=
      (fds.take fd_count).filterMap
        (fun e => if e.is_socket then some e.socket_inode else none)
    if socket_inodes.isEmpty then (Except.ok ([], 0), false, false)
    else
      match parse_net_file tcp_file true socket_inodes with
      | (Except.error _, tcp_opened) => (Except.error (), tcp_opened, false)
      | (Except.ok (_tcp_sockets, _tcp_count), tcp_opened) =>
        match parse_net_file udp_file false socket_inodes with
        | (Except.error _, udp_opened) => (Except.error (), tcp_opened, udp_opened)
        | (Except.ok (tcp_sockets2, tcp_count2), udp_opened) =>
          let udp_sockets : List socket_info := []
          let udp_count : Nat := 0
          let total_count := tcp_count2 + udp_count
          if total_count = 0 then (Except.ok ([], 0), tcp_opened, udp_opened)
          else
            (Except.ok (tcp_sockets2.take tcp_count2 ++ udp_sockets.take udp_count,
                        total_count),
             tcp_opened, udp_opened)

/- ------------------------------------------------------------------ -/
/- Spec-side predicates (for claim C5)                                -/
/- ------------------------------------------------------------------ -/

/-- Spec §3: the target "matches the exact pattern `socket:[<decimal-digits>]`":
the literal `socket:[`, a nonempty run of decimal digits, a closing `]`,
and nothing else. -/
def socket_pattern_exact (t : String) : Bool :=
  match dropLit "socket:[".data t.data with
  | none => false
  | some rest =>
      (rest.getLast? == some ']') && !rest.dropLast.isEmpty &&
      rest.dropLast.all Char.isDigit

/-- The classification the code actually implements, stated as a pattern:
the literal `socket:[` followed by optional whitespace, an optional sign,
and at least one decimal digit; anything after the digits (including a
missing `]`) is ignored. -/
def socket_pattern_loose (t : String) : Bool :=
  match dropLit "socket:[".data t.data with
  | none => false
  | some rest =>
    match skipWs rest with
    | [] => false
    | c :: r =>
      if c = '+' || c = '-' then
        match r with
        | [] => false
        | d :: _ => d.isDigit
      else c.isDigit

/- ------------------------------------------------------------------ -/
/- Helper lemmas                                                      -/
/- ------------------------------------------------------------------ -/

theorem takeWhile_all {α : Type} {p : α → Bool} :
    ∀ l : List α, (∀ c ∈ l, p c = true) → l.takeWhile p = l := by
  intro l h
  induction l with
  | nil => rfl
  | cons c r ih =>
    have hc : p c = true := h c (List.mem_cons_self c r)
    simp [List.takeWhile_cons, hc, ih (fun x hx => h x (List.mem_cons_of_mem c hx))]

theorem dropWhile_all {α : Type} {p : α → Bool} :
    ∀ l : List α, (∀ c ∈ l, p c = true) → l.dropWhile p = [] := by
  intro l h
  induction l with
  | nil => rfl
  | cons c r ih =>
    have hc : p c = true := h c (List.mem_cons_self c r)
    simp [List.dropWhile_cons, hc, ih (fun x hx => h x (List.mem_cons_of_mem c hx))]

theorem takeWhile_breaker {α : Type} {p : α → Bool} :
    ∀ (d : List α), (∀ c ∈ d, p c = true) → ∀ (x : α) (r : List α), p x = false →
      (d ++ x :: r).takeWhile p = d := by
  intro d hd x r hx
  induction d with
  | nil => simp [List.takeWhile_cons, hx]
  | cons c dt ih =>
    have hc : p c = true := hd c (List.mem_cons_self c dt)
    simp [List.takeWhile_cons, hc,
      ih (fun y hy => hd y (List.mem_cons_of_mem c hy))]

theorem dropWhile_breaker {α : Type} {p : α → Bool} :
    ∀ (d : List α), (∀ c ∈ d, p c = true) → ∀ (x : α) (r : List α), p x = false →
      (d ++ x :: r).dropWhile p = x :: r := by
  intro d hd x r hx
  induction d with
  | nil => simp [List.dropWhile_cons, hx]
  | cons c dt ih =>
    have hc : p c = true := hd c (List.mem_cons_self c dt)
    simp [List.dropWhile_cons, hc,
      ih (fun y hy => hd y (List.mem_cons_of_mem c hy))]

theorem hex_not_space {c : Char} (h : isHexDigitC c = true) : isSpaceC c = false := by
  by_contra hs
  rw [Bool.not_eq_false] at hs
  simp only [isSpaceC, Bool.or_eq_true, decide_eq_true_eq] at hs
  rcases hs with ((((h1 | h2) | h3) | h4) | h5) | h6 <;> subst_vars <;>
    exact absurd h (by decide)

/- ------------------------------------------------------------------ -/
/- Claim theorems                                                     -/
/- ------------------------------------------------------------------ -/

/-- C1: the claim says `find_process_sockets` returns the inner join of
the process's socket-inode set with the TCP and UDP tables, TCP records
first, with the count equal to the number of merged records.  The code
does not: for a process owning socket inode 5 and a TCP table containing
a row with inode 5 (a nonempty join, as the second conjunct shows), the
call still returns an empty list, count 0, and never opens either
table. -/
theorem find_process_sockets_always_empty :
    find_process_sockets (some [⟨"3", some "socket:[5]"⟩])
        (some ["hdr", " 0: 0100007F:1F90 00000000:0000 0A 0:0 0:0 0 1000 0 5"])
        (some ["hdr"])
      = (Except.ok ([], 0), false, false)
    ∧ (parse_net_file
          (some ["hdr", " 0: 0100007F:1F90 00000000:0000 0A 0:0 0:0 0 1000 0 5"])
          true [5]).1
        = Except.ok ([⟨true, 0x7F000001, 8080, "00000000:0000", 0, none, 5⟩], 0) :=
  ⟨rfl, rfl⟩

/-- C2: the claim says `parse_net_file` returns exactly the M surviving
records with its output count equal to M.  On a 3-row table whose
inodes are 5, 7, 9 and the target set {5, 9}, the output array does hold
the M = 2 survivors in file order, but the reported count is 0
(net.c:312 stores `0`, not `count`, into `*result_count`). -/
theorem parse_net_file_count_stuck_zero :
    parse_net_file (some ["hdr",
        " 0: 0100007F:1F90 00000000:0000 0A 0:0 0:0 0 1000 0 5",
        " 1: 0200007F:0050 00000000:0000 0A 0:0 0:0 0 1000 0 7",
        " 2: 00000000:0016 00000000:0000 0A 0:0 0:0 0 0 0 9"]) true [5, 9]
      = (Except.ok ([⟨true, 0x7F000001, 8080, "00000000:0000", 0, none, 5⟩,
                     ⟨true, 0, 22, "00000000:0000", 0, none, 9⟩], 0), true) :=
  rfl

/-- C3: the claim says decoding `"0100007F:1F90"` on a little-endian
host and re-encoding yields `"127.0.0.1:8080"`.  The code's decode
applies `htonl` to a value that is already in the memory layout
`inet_ntoa` expects, so the round trip renders `"1.0.0.127:8080"`
instead. -/
theorem hex_addr_roundtrip_misrenders :
    parse_hex_addr "0100007F:1F90" = some (0x7F000001, 8080)
    ∧ format_ip_port 0x7F000001 8080 false 32 = some "1.0.0.127:8080"
    ∧ "1.0.0.127:8080" ≠ "127.0.0.1:8080" :=
  ⟨rfl, rfl, by decide⟩

/-- C4: the claim says each accumulated record carries the decoded
numeric remote address and the row's parsed `st` column.  For a
surviving row with remote token `"0200007F:0050"` and st `0A`, the
stored record instead carries the raw remote token (a string, not the
codec's decoding `0x7F000002` shown in the second conjunct) and no
state at all (`none`; net.c never assigns the field). -/
theorem parse_net_file_record_fields_bug :
    parse_net_file (some ["hdr",
        " 6: 0100007F:1F90 0200007F:0050 0A 0:0 0:0 0 1000 0 6"]) true [6]
      = (Except.ok ([⟨true, 0x7F000001, 8080, "0200007F:0050", 80, none, 6⟩], 0), true)
    ∧ parse_hex_addr "0200007F:0050" = some (0x7F000002, 80) :=
  ⟨rfl, rfl⟩

/-- C9: the claim says `format_ip_port` never writes past the buffer and
writes a `"?"` placeholder on a NULL or zero-length buffer.  The
no-overflow half holds (third conjunct: at most `buflen - 1` characters
are stored), but on a NULL buffer and on a zero-length buffer the
function returns without writing anything at all (first two
conjuncts), contradicting net.h's promise of `"?"` on error. -/
theorem format_ip_port_silent_on_bad_buffer :
    format_ip_port 0x0100007F 8080 true 32 = none
    ∧ format_ip_port 0x0100007F 8080 false 0 = none
    ∧ ∀ (a p n : Nat) (s : String),
        1 ≤ n → format_ip_port a p false n = some s → s.length ≤ n - 1 := by
  refine ⟨rfl, rfl, ?_⟩
  intro a p n s hn hfmt
  have hnz : ¬ n = 0 := by omega
  simp only [format_ip_port, Bool.false_or, hnz, if_false, decide_eq_true_eq,
    if_neg, Option.some.injEq] at hfmt
  rw [← hfmt]
  show ((inet_ntoa_le (a % 2 ^ 32) ++ ":" ++ toString (p % 2 ^ 16)).data.take (n - 1)).length ≤ n - 1
  rw [List.length_take]
  exact Nat.min_le_left _ _

/-- Witness for C9's third conjunct at a concrete input: with a 5-byte
buffer the stored string is the 4-character truncation `"0.0."`. -/
theorem format_ip_port_silent_on_bad_buffer_witness :
    format_ip_port 0 22 false 5 = some "0.0." ∧ "0.0.".length ≤ 4 :=
  ⟨rfl, format_ip_port_silent_on_bad_buffer.2.2 0 22 5 "0.0." (by decide) rfl⟩

/-- C6: an empty (or NULL, which the code tests identically) target
inode set makes the Connection Table Reader succeed with an empty
result and zero count without reaching `fopen` — even when the file
could not be opened at all — and a process whose enumerated descriptors
include no sockets yields an empty correlation result with neither
connection table opened. -/
theorem empty_inode_set_skips_open :
    (∀ (file : Option (List String)) (is_tcp : Bool),
        parse_net_file file is_tcp [] = (Except.ok ([], 0), false))
    ∧ (∀ (dir : Option (List dirent)) (fds : List fd_entry)
          (tcp udp : Option (List String)),
        enumerate_fds dir = some fds →
        (∀ e ∈ fds, e.is_socket = false) →
        find_process_sockets dir tcp udp = (Except.ok ([], 0), false, false)) := by
  constructor
  · intro file is_tcp
    simp [parse_net_file]
  · intro dir fds tcp udp h _hnosock
    simp [find_process_sockets, h]

/-- Witness for C6 at a concrete input: one non-socket descriptor, a
nonempty TCP table, an empty target set. -/
theorem empty_inode_set_skips_open_witness :
    find_process_sockets (some [⟨"0", some "/dev/null"⟩])
        (some ["h", "r"]) (some ["h"])
      = (Except.ok ([], 0), false, false)
    ∧ parse_net_file (some ["h", "r"]) true [] = (Except.ok ([], 0), false) :=
  ⟨empty_inode_set_skips_open.2 (some [⟨"0", some "/dev/null"⟩])
      [⟨0, "/dev/null", false, 0⟩] (some ["h", "r"]) (some ["h"]) rfl
      (by intro e he; simp at he; subst he; rfl),
   empty_inode_set_skips_open.1 (some ["h", "r"]) true⟩

/-- C7: `enumerate_fds` aborts exactly when the descriptor directory
cannot be opened, and a directory entry whose symlink resolution fails
is dropped while every other entry is still processed: deleting such an
entry from the listing does not change the result. -/
theorem enumerate_fds_skips_failed_readlink :
    (∀ dir : Option (List dirent), enumerate_fds dir = none ↔ dir = none)
    ∧ (∀ (a b : List dirent) (nm : String),
        enumerate_fds (some (a ++ ⟨nm, none⟩ :: b)) = enumerate_fds (some (a ++ b))) := by
  constructor
  · intro dir
    cases dir <;> simp [enumerate_fds]
  · intro a b nm
    simp only [enumerate_fds, Option.some.injEq]
    induction a with
    | nil =>
      cases h : is_numeric nm <;> simp [enumerate_fds_loop, h]
    | cons e tl ih =>
      rcases e with ⟨en, elt⟩
      cases h : is_numeric en <;> cases elt <;>
        simp [List.cons_append, enumerate_fds_loop, h, ih]

/-- C8: a connection-table line whose `sscanf` assigns fewer than the
six required conversions is skipped without affecting any other line,
and the call still succeeds: deleting the malformed line from the table
does not change the result. -/
theorem parse_net_file_skips_malformed_line :
    ∀ (hdr m : String) (a b : List String) (tgt : List Nat) (is_tcp : Bool),
      sscanf_net_line m = none →
      parse_net_file (some (hdr :: a ++ m :: b)) is_tcp tgt
          = parse_net_file (some (hdr :: (a ++ b))) is_tcp tgt
        ∧ ∃ out, (parse_net_file (some (hdr :: a ++ m :: b)) is_tcp tgt).1
            = Except.ok out := by
  intro hdr m a b tgt is_tcp hm
  have hskip : ∀ (a : List String),
      process_lines is_tcp tgt (a ++ m :: b) = process_lines is_tcp tgt (a ++ b) := by
    intro a
    induction a with
    | nil => simp [process_lines, hm]
    | cons l tl ih =>
      simp only [List.cons_append]
      cases hl : sscanf_net_line l with
      | none => simpa [process_lines, hl] using ih
      | some row =>
        cases hin : inode_in_set row.inode tgt with
        | false => simpa [process_lines, hl, hin] using ih
        | true =>
          cases h1 : parse_hex_addr row.local_tok with
          | none => simpa [process_lines, hl, hin, h1] using ih
          | some p1 =>
            obtain ⟨x1, y1⟩ := p1
            cases h2 : parse_hex_addr row.remote_tok with
            | none => simpa [process_lines, hl, hin, h1, h2] using ih
            | some p2 =>
              obtain ⟨x2, y2⟩ := p2
              simpa [process_lines, hl, hin, h1, h2] using ih
  constructor
  · by_cases ht : tgt.isEmpty <;> simp [parse_net_file, ht, hskip a]
  · by_cases ht : tgt.isEmpty <;> simp [parse_net_file, ht]

/-- Witness for C8 at a concrete input: the line `"corrupt"` fails to
parse, is skipped, and the remaining well-formed row is still
returned. -/
theorem parse_net_file_skips_malformed_line_witness :
    parse_net_file (some ["hdr", "corrupt",
        " 0: 0100007F:1F90 00000000:0000 0A 0:0 0:0 0 1000 0 5"]) true [5]
      = parse_net_file (some ["hdr",
          " 0: 0100007F:1F90 00000000:0000 0A 0:0 0:0 0 1000 0 5"]) true [5]
    ∧ ∃ out, (parse_net_file (some ["hdr", "corrupt",
        " 0: 0100007F:1F90 00000000:0000 0A 0:0 0:0 0 1000 0 5"]) true [5]).1
        = Except.ok out :=
  parse_net_file_skips_malformed_line "hdr" "corrupt" []
    [" 0: 0100007F:1F90 00000000:0000 0A 0:0 0:0 0 1000 0 5"] [5] true rfl

/-- C10: `parse_hex_addr` accepts any `<hex>:<hex>` token regardless of
field widths; the parsed port is reduced modulo 2^16 by the cast to a
16-bit integer, so over-wide port fields succeed with a truncated value
instead of a format error. -/
theorem parse_hex_addr_lenient_widths (d1 d2 : List Char)
    (h1 : d1 ≠ []) (h2 : d2 ≠ [])
    (hh1 : ∀ c ∈ d1, isHexDigitC c = true) (hh2 : ∀ c ∈ d2, isHexDigitC c = true)
    (hw1 : hexListVal d1 < 2 ^ 32) (hw2 : hexListVal d2 < 2 ^ 32) :
    parse_hex_addr ⟨d1 ++ ':' :: d2⟩
      = some (htonl_le (hexListVal d1), hexListVal d2 % 2 ^ 16) := by
  have hcolon : isHexDigitC ':' = false := by decide
  have hrun1 : readHexRun (d1 ++ ':' :: d2) = some (hexListVal d1, ':' :: d2) := by
    have htake := takeWhile_breaker d1 hh1 ':' d2 hcolon
    have hdrop := dropWhile_breaker d1 hh1 ':' d2 hcolon
    simp [readHexRun, htake, hdrop, h1]
  have hrun2 : readHexRun d2 = some (hexListVal d2, []) := by
    simp [readHexRun, takeWhile_all d2 hh2, dropWhile_all d2 hh2, h2]
  have hscan1 : scanfHex 4294967296 (d1 ++ ':' :: d2)
      = some (hexListVal d1 % 4294967296, ':' :: d2) := by
    cases d1 with
    | nil => exact absurd rfl h1
    | cons c t =>
      have hc := hh1 c (List.mem_cons_self c t)
      have hsp : isSpaceC c = false := hex_not_space hc
      have hcp : c ≠ '+' := by rintro rfl; exact absurd hc (by decide)
      have hcm : c ≠ '-' := by rintro rfl; exact absurd hc (by decide)
      simpa [scanfHex, skipWs, List.dropWhile_cons, hsp, hcp, hcm]
        using congrArg (Option.map (fun p => (p.1 % 4294967296, p.2))) hrun1
  have hscan2 : scanfHex 4294967296 d2 = some (hexListVal d2 % 4294967296, []) := by
    cases d2 with
    | nil => exact absurd rfl h2
    | cons c t =>
      have hc := hh2 c (List.mem_cons_self c t)
      have hsp : isSpaceC c = false := hex_not_space hc
      have hcp : c ≠ '+' := by rintro rfl; exact absurd hc (by decide)
      have hcm : c ≠ '-' := by rintro rfl; exact absurd hc (by decide)
      simpa [scanfHex, skipWs, List.dropWhile_cons, hsp, hcp, hcm]
        using congrArg (Option.map (fun p => (p.1 % 4294967296, p.2))) hrun2
  have hd : (String.mk (d1 ++ ':' :: d2)).data = d1 ++ ':' :: d2 := rfl
  have hw1n : hexListVal d1 % 4294967296 = hexListVal d1 := Nat.mod_eq_of_lt hw1
  have hmodn : hexListVal d2 % 4294967296 % 65536 = hexListVal d2 % 65536 :=
    Nat.mod_mod_of_dvd _ (by norm_num)
  simp [parse_hex_addr, hd, hscan1, hscan2, expectChar, hw1n, hmodn]

/-- Witness for C10 at a concrete input: the 5-hex-digit port field of
`"0100007F:12345"` is accepted and truncated to `0x2345 = 9029`. -/
theorem parse_hex_addr_lenient_widths_witness :
    parse_hex_addr "0100007F:12345" = some (0x7F000001, 9029) :=
  parse_hex_addr_lenient_widths "0100007F".data "12345".data
    (by decide) (by decide) (by decide) (by decide) (by decide) (by decide)

theorem readDecRun_isSome (l : List Char) :
    (readDecRun l).isSome = (match l with | [] => false | c :: _ => c.isDigit) := by
  cases l with
  | nil => rfl
  | cons c r =>
    simp only [readDecRun, List.takeWhile_cons]
    cases hc : c.isDigit <;> simp [hc]

theorem isSome_map {α β : Type} (f : α → β) (o : Option α) :
    (o.map f).isSome = o.isSome := by
  cases o <;> rfl

theorem scanfUInt_isSome (w : Nat) (l : List Char) :
    (scanfUInt w l).isSome =
      (match skipWs l with
       | [] => false
       | c :: r =>
         if c = '+' || c = '-' then (match r with | [] => false | d :: _ => d.isDigit)
         else c.isDigit) := by
  unfold scanfUInt
  cases hsk : skipWs l with
  | nil => rfl
  | cons c r =>
    by_cases hp : c = '+'
    · subst hp; simp [isSome_map, readDecRun_isSome]
    · by_cases hm : c = '-'
      · subst hm; simp [isSome_map, readDecRun_isSome]
      · simp [hp, hm, isSome_map, readDecRun_isSome]

/-- C5 (counterexample): the claim's "is_socket iff the target matches
the exact pattern `socket:[<decimal-digits>]`" fails: the enumerator
classifies the target `"socket:[12345"` — which lacks the closing
bracket and so does not match the exact pattern — as a socket with
inode 12345, because the `sscanf` return value does not depend on the
trailing `]` of the format. -/
theorem is_socket_not_exact_pattern :
    enumerate_fds (some [⟨"7", some "socket:[12345"⟩])
      = some [⟨7, "socket:[12345", true, 12345⟩]
    ∧ socket_pattern_exact "socket:[12345" = false :=
  ⟨rfl, rfl⟩

/-- C5 (amended): a descriptor entry has `is_socket = true` iff its
resolved target begins with the literal `socket:[` followed by optional
whitespace, an optional sign, and at least one decimal digit — trailing
text, including the closing bracket, is not checked; in particular
`socket:[12345]` classifies as a socket with inode 12345, while
`pipe:[12345]`, `/dev/null` and `anon_inode:[eventfd]` classify as
non-socket. -/
theorem is_socket_loose_characterization :
    (∀ name target : String,
        (parse_fd_entry name target).is_socket = socket_pattern_loose target)
    ∧ enumerate_fds (some [⟨"3", some "socket:[12345]"⟩, ⟨"4", some "pipe:[12345]"⟩,
          ⟨"5", some "/dev/null"⟩, ⟨"6", some "anon_inode:[eventfd]"⟩])
        = some [⟨3, "socket:[12345]", true, 12345⟩, ⟨4, "pipe:[12345]", false, 0⟩,
                ⟨5, "/dev/null", false, 0⟩, ⟨6, "anon_inode:[eventfd]", false, 0⟩] := by
  refine ⟨?_, rfl⟩
  intro name target
  have hfd : (parse_fd_entry name target).is_socket = (parse_socket_inode target).isSome := by
    unfold parse_fd_entry
    cases parse_socket_inode target <;> rfl
  rw [hfd]
  unfold parse_socket_inode socket_pattern_loose
  cases hlit : dropLit "socket:[".data target.data with
  | none => rfl
  | some rest =>
    rw [isSome_map, scanfUInt_isSome]
